import Mathlib

/-!
Verification of the Kekopoly session/state-coordination core against its
natural-language specification.  The definitions below are shallow embeddings
of the repository's source:

* `src/kekopoly-frontend/src/services/socketService.js` (reconnection backoff,
  coalesced-frame recovery, host election on `player_joined`, turn handlers,
  cosmetic-field merging, cross-store player synchronization);
* `src/kekopoly-frontend/src/store/middleware/stateAdapterMiddleware.js`
  (the two Redux player stores and the synchronizing middleware);
* `src/kekopoly-backend/internal/api/middleware/auth/jwt.go` (JWT issue/verify);
* `src/kekopoly-backend/internal/auth` Solana validator (`VerifySignature`);
* `src/kekopoly-backend/internal/api/handlers/auth_handler.go` (`WalletConnect`);
* `src/unnamed/part_003` (the `SendToPlayerWithPriority` lane assignment);
* the per-player disconnection state machine, modelled from the spec because
  the backend hub implementation is not part of the sources.

JavaScript strings are modelled as `String` (with `""` playing the role of a
falsy/absent value, as `||` and truthiness tests treat it), frames as
`List Char`, machine integers as `Nat`, and the 1.5-multiplier backoff delay
as `ℚ` (the JavaScript doubles involved, `1000 * 1.5^k` for `k ≤ 4`, are all
exactly representable, so `ℚ` computes the same values).
-/

namespace Kekopoly

/-- JavaScript `a || b` on strings: `""` is falsy, every other string truthy. -/
def jsOr (a b : String) : String := if a = "" then b else a

/-! ### SocketService reconnection backoff (socketService.js lines 55-59, 844-879) -/

namespace SocketService

/-- `maxReconnectAttempts = 5` (socketService.js line 57). -/
def maxReconnectAttempts : Nat := 5

/-- `reconnectInterval = 1000` milliseconds (socketService.js line 58). -/
def reconnectInterval : ℚ := 1000

/-- `handleDisconnect` (socketService.js lines 729-880).  Inputs:
`event.wasClean`, whether the navigation-preservation condition
`this.isNavigating || this.preserveConnection || this.loadState('isNavigating',
false)` holds (line 745), and the current `reconnectAttempts` counter.
Output: the updated counter and the delay in milliseconds of the scheduled
reconnection attempt (`none` when no attempt is scheduled).

Navigation branch (lines 745-842): regardless of `wasClean` and of how many
attempts were already made, the counter is reset to 0 (line 754) and a
reconnect is scheduled after a fixed 100 ms (line 839), which then attempts
`connect` with stored or localStorage-recovered credentials.

Standard branch (lines 844-879): on an unclean disconnect below the cap the
counter is incremented and `connect` is scheduled after
`reconnectInterval * Math.pow(1.5, reconnectAttempts - 1)` ms; a clean
disconnect, or a counter at `maxReconnectAttempts`, schedules nothing. -/
def handleDisconnect (wasClean navigating : Bool) (reconnectAttempts : Nat) :
    Nat × Option ℚ :=
  if navigating = true then
    (0, some 100)
  else if wasClean = false ∧ reconnectAttempts < maxReconnectAttempts then
    let n := reconnectAttempts + 1
    (n, some (reconnectInterval * (3 / 2 : ℚ) ^ (n - 1)))
  else
    (reconnectAttempts, none)

/-- The failure callback of a scheduled standard reconnection attempt
(socketService.js lines 861-872): when the attempt used saved player data and
failed while the counter is still below `maxReconnectAttempts`, one extra
retry without the saved data is scheduled after a fixed 1000 ms — an
uncounted attempt outside the exponential schedule. -/
def reconnectFailureRetry (hadSavedPlayerData : Bool) (reconnectAttempts : Nat) :
    Option ℚ :=
  if hadSavedPlayerData = true ∧ reconnectAttempts < maxReconnectAttempts then
    some 1000
  else
    none

end SocketService

/-! ### Outbound delivery lanes (src/unnamed/part_003) -/

/-- The three delivery lanes of the outbound queue. -/
inductive Priority where
  | high
  | normal
  | low
deriving DecidableEq

/-- The kinds of payload whose `SendToPlayer` call sites the migration script
`src/unnamed/part_003` rewrites to `SendToPlayerWithPriority`. -/
inductive HubOutbound where
  | errorMessage
  | ack
  | response
  | confirmation
deriving DecidableEq

/-- Lane assignment performed by the migration script `src/unnamed/part_003`:
`errorJSON` is sent with `PriorityHigh`; `ackBytes`, `responseJSON` and
`confirmationJSON` are all sent with `PriorityNormal`. -/
def sendToPlayerWithPriorityLane : HubOutbound → Priority
  | .errorMessage => .high
  | .ack => .normal
  | .response => .normal
  | .confirmation => .normal

/-! ### Per-player disconnection state machine -/

/-- Connection phase of a player's session. -/
inductive SessionPhase where
  | active
  | grace (remainingSeconds : Nat)
  | forfeited
deriving DecidableEq

/-- Events driving the disconnection state machine. -/
inductive SessionEvent where
  | transportLoss
  | reconnect
  | tick (elapsedSeconds : Nat)
deriving DecidableEq

/-- Grace-period countdown default: 180 seconds (3 minutes), from spec §4.2 and
`src/kekopoly_architecture.md` ("3-minute countdown timer initiated"). -/
def defaultGraceSeconds : Nat := 180

/-- Modelled from the spec: the server-side per-player disconnection state
machine of spec §4.2 and `src/kekopoly_architecture.md` lines 967-991
("Disconnection Detection and Management Process"); the backend hub code
implementing it is not among the sources.  ACTIVE moves to GRACE with the
default countdown on transport loss; a GRACE player returns to ACTIVE on
reconnection; a GRACE countdown that expires yields FORFEITED; duplicate loss
signals while in GRACE do not restart the countdown; FORFEITED is terminal
("Forfeited player cannot rejoin this game instance"). -/
def graceStep : SessionPhase → SessionEvent → SessionPhase
  | .active, .transportLoss => .grace defaultGraceSeconds
  | .active, .reconnect => .active
  | .active, .tick _ => .active
  | .grace r, .transportLoss => .grace r
  | .grace _, .reconnect => .active
  | .grace r, .tick dt => if r ≤ dt then .forfeited else .grace (r - dt)
  | .forfeited, _ => .forfeited

/-! ### Coalesced-frame recovery in handleMessage (socketService.js lines
901-1130) -/

/-- Whitespace recognized by `String.prototype.trim` (restricted to the
common ASCII whitespace characters). -/
def isWsChar (c : Char) : Bool := c = ' ' ∨ c = '\n' ∨ c = '\t' ∨ c = '\r'

/-- `s.trim()` on a frame: strip leading and trailing whitespace. -/
def trimChars (s : List Char) : List Char :=
  ((s.dropWhile isWsChar).reverse.dropWhile isWsChar).reverse

/-- Scans the remainder of a candidate object frame at brace depth `d ≥ 1`:
accepts exactly when the depth returns to zero at the last character.
String literals are not modelled; the spec itself describes the recovery as
splitting on `}{` or brace-matching. -/
def braceScan : List Char → Nat → Bool
  | [], _ => false
  | c :: cs, d =>
    if c = '}' then (if d = 1 then cs.isEmpty else braceScan cs (d - 1))
    else if c = '{' then braceScan cs (d + 1)
    else braceScan cs d

/-- A frame that `JSON.parse` accepts as a single object: it starts with `{`
and its braces balance exactly at the final character. -/
def isObjFrame : List Char → Bool
  | '{' :: rest => braceScan rest 1
  | _ => false

/-- `JSON.parse` on one frame (restricted to object messages): the frame
itself on success, a `SyntaxError` otherwise. -/
def parseJsonObj (s : List Char) : Except String (List Char) :=
  if isObjFrame s then .ok s else .error "SyntaxError: unexpected token in JSON"

/-- `rawData.includes(String.fromCharCode(125, 123))`: the frame contains a
closing brace immediately followed by an opening brace (socketService.js
line 1067). -/
def hasBoundary : List Char → Bool
  | [] => false
  | c :: cs => if c = '}' ∧ cs.head? = some '{' then true else hasBoundary cs

/-- Worker for the boundary split `rawData.split(/(?<=\})(?=\{)/)`
(socketService.js line 1071): the frame is cut between every adjacent
closing/opening brace pair, both braces being kept. -/
def splitGo : List Char → List Char → List (List Char)
  | [], cur => [cur.reverse]
  | c :: cs, cur =>
    if c = '}' ∧ cs.head? = some '{' then ((c :: cur).reverse) :: splitGo cs []
    else splitGo cs (c :: cur)

/-- `rawData.split(/(?<=\})(?=\{)/)` (socketService.js line 1071). -/
def splitConcatenated (s : List Char) : List (List Char) := splitGo s []

/-- Worker for the brace-matching extraction of the second recovery branch
(socketService.js line 1095): scan the frame, collecting every maximal
balanced-brace substring.  The source regex handles nesting up to depth
three; the model matches at any depth. -/
def extractScan : List Char → Nat → List Char → List (List Char)
  | [], _, _ => []
  | c :: cs, d, acc =>
    if d = 0 then (if c = '{' then extractScan cs 1 [c] else extractScan cs 0 [])
    else if c = '}' then
      (if d = 1 then ((c :: acc).reverse) :: extractScan cs 0 []
       else extractScan cs (d - 1) (c :: acc))
    else if c = '{' then extractScan cs (d + 1) (c :: acc)
    else extractScan cs d (c :: acc)

/-- Brace-matching extraction of embedded objects (socketService.js lines
1095-1096). -/
def extractObjects (s : List Char) : List (List Char) := extractScan s 0 []

/-- `handleMessage` (socketService.js lines 901-1130), viewed through the
frames it ends up processing.  The result is `.ok ms` when the handler runs
to completion having routed the frames `ms` (each to `processRecoveredMessage`
or the main switch), `.error` when an exception would escape to the caller.
`JSON.parse` succeeding routes the single frame.  On a `SyntaxError`, the
catch block (lines 1055-1129) recovers: a frame containing a `}{` boundary is
split there, each part is trimmed and parsed inside its own try/catch, and
every successfully parsed part is processed while failing parts are logged
and skipped (lines 1067-1088); otherwise a frame that still looks
brace-delimited undergoes regex brace-matching with the same per-object
try/catch (lines 1089-1113); otherwise the frame is logged and dropped.  No
branch rethrows, so every result is `.ok`. -/
def handleMessage (raw : List Char) : Except String (List (List Char)) :=
  match parseJsonObj raw with
  | .ok m => .ok [m]
  | .error _ =>
    if hasBoundary raw then
      .ok ((splitConcatenated raw).filterMap fun part =>
        (parseJsonObj (trimChars part)).toOption)
    else if (trimChars raw).head? = some '{' ∧ (trimChars raw).getLast? = some '}' then
      .ok ((extractObjects raw).filterMap fun m => (parseJsonObj m).toOption)
    else
      .ok []

/-! ### Host election on player_joined (socketService.js lines 1899-2023) -/

/-- The `hostId` of the game store after `handlePlayerJoined` processes a
`player_joined` message, following socketService.js lines 1899-2023.
Inputs: the current `state.game.hostId` (`none` when unset), the ids of the
players already in `state.players.players`, the joining player's id and
whether the message carries `isHost === true`.

Existing player (lines 1910-1922): when the message explicitly marks the
player as host and the current `hostId` differs, `setHost(player.id)` is
dispatched; otherwise `hostId` is untouched.

New player (lines 2001-2023): an explicit host claim always dispatches
`setHost(player.id)`; otherwise the player matching the stored `hostId`
keeps it; otherwise, with no host set and no existing players, the joiner
becomes host. -/
def handlePlayerJoinedHostId (hostId : Option String) (existingIds : List String)
    (pid : String) (isHostClaim : Bool) : Option String :=
  if pid ∈ existingIds then
    if isHostClaim = true ∧ hostId ≠ some pid then some pid else hostId
  else
    if isHostClaim = true then some pid
    else if some pid = hostId then hostId
    else if hostId = none ∧ existingIds = [] then some pid
    else hostId

/-! ### Turn authority handlers (socketService.js lines 1591-1637, 2541-2639, 4515-4551) -/

/-- `handleTurnChanged` (socketService.js lines 4515-4551): local current-turn
state after the handler runs, given the message's `currentTurn` field (`""`
for absent) and the previous `state.game.currentPlayer`.  An invalid (falsy)
`currentTurn` leaves the state unchanged; otherwise `setCurrentPlayer` is
dispatched with the server's value. -/
def handleTurnChanged (currentTurn : String) (prev : String) : String :=
  if currentTurn = "" then prev else currentTurn

/-- `handleCurrentTurn` (socketService.js lines 1591-1637): the handler reads
`data.currentTurn || data.currentPlayer`, returns unchanged when that value is
falsy, and otherwise dispatches `setCurrentPlayer` with it. -/
def handleCurrentTurn (currentTurn currentPlayer : String) (prev : String) : String :=
  let t := jsOr currentTurn currentPlayer
  if t = "" then prev else t

/-- The turn-setting tail of `handleGameStarted` (socketService.js lines
2541-2639).  Returns the local current-turn value after the handler and
whether the client sent a `set_current_turn` message to the server.  When
`data.currentTurn` is present the client adopts it (lines 2542-2549); when it
is absent but a `hostId` is known, the client itself sets the host as current
player and sends `set_current_turn {playerId: hostId}` to the server (lines
2599-2613); otherwise it only requests the turn from the server. -/
def handleGameStartedTurn (currentTurn : String) (hostId : String) (prev : String) :
    String × Bool :=
  if currentTurn ≠ "" then (currentTurn, false)
  else if hostId ≠ "" then (hostId, true)
  else (prev, false)

/-! ### Cosmetic-field merge policy (socketService.js lines 1924-1974,
stateAdapterMiddleware.js lines 166-187) -/

/-- Cosmetic display fields of a player record. -/
structure CosmeticView where
  name : String
  token : String
  emoji : String
  color : String
deriving DecidableEq

/-- The merged record that `dispatch(updatePlayer(...))` at socketService.js
line 1971 would store: the cosmetic part of the `updates` object built for an
existing player (lines 1924-1963) — each of `name`, `token`, `emoji`, `color`
is included only when the incoming value is truthy and differs from the
stored one (`if (player.name && existingPlayer.name !== player.name)
updates.name = player.name`) — applied over the existing record.  Whether the
dispatch is actually reached is the subject of `handlePlayerJoinedUpdate`. -/
def handlePlayerJoinedMerge (incoming existing : CosmeticView) : CosmeticView where
  name := if incoming.name ≠ "" ∧ existing.name ≠ incoming.name
    then incoming.name else existing.name
  token := if incoming.token ≠ "" ∧ existing.token ≠ incoming.token
    then incoming.token else existing.token
  emoji := if incoming.emoji ≠ "" ∧ existing.emoji ≠ incoming.emoji
    then incoming.emoji else existing.emoji
  color := if incoming.color ≠ "" ∧ existing.color ≠ incoming.color
    then incoming.color else existing.color

/-- The existing-player update path of `handlePlayerJoined` (socketService.js
lines 1910-1996), restricted to the cosmetic fields: the stored record after
the handler runs, or the exception that escapes.  `needsUpdate` is set
exactly when some field condition of lines 1940-1963 triggers; when it is,
line 1968 reads `data.playerId` — but no `data` is declared in any enclosing
scope of this handler (its parameter is `player`; the `data` bindings at
lines 607, 905, 3127 and 3230 are local to other functions), so in strict
mode a `ReferenceError` is thrown before `dispatch(updatePlayer)` at line
1971 is reached and the stored record is left unchanged.  When `needsUpdate`
is false, no dispatch happens and the record is likewise unchanged. -/
def handlePlayerJoinedUpdate (incoming existing : CosmeticView) :
    Except String CosmeticView :=
  if (incoming.name ≠ "" ∧ existing.name ≠ incoming.name) ∨
      (incoming.token ≠ "" ∧ existing.token ≠ incoming.token) ∨
      (incoming.emoji ≠ "" ∧ existing.emoji ≠ incoming.emoji) ∨
      (incoming.color ≠ "" ∧ existing.color ≠ incoming.color) then
    .error "ReferenceError: data is not defined"
  else
    .ok existing

/-- Player fields merged by the `game/setPlayers` case of the state adapter
middleware. -/
structure GamePlayerView where
  name : String
  token : String
  characterToken : String
  emoji : String
  color : String
deriving DecidableEq

/-- The cosmetic part of the `updatePlayer` dispatch in the `game/setPlayers`
case of `stateAdapterMiddleware` (stateAdapterMiddleware.js lines 166-187),
for a player present in both stores: each field is the JavaScript `||`-chain
of the incoming value, its fallbacks, the stored value, and a default. -/
def setPlayersMergeCosmetic (incoming existing : GamePlayerView) : GamePlayerView where
  name := jsOr incoming.name existing.name
  token := jsOr incoming.token (jsOr incoming.characterToken
    (jsOr incoming.emoji (jsOr existing.token "👤")))
  characterToken := jsOr incoming.characterToken (jsOr incoming.token
    (jsOr incoming.emoji (jsOr existing.characterToken "👤")))
  emoji := jsOr incoming.emoji (jsOr existing.emoji "👤")
  color := jsOr incoming.color (jsOr existing.color "gray.500")

/-! ### The two Redux player stores and the state adapter middleware
(stateAdapterMiddleware.js lines 13-227, src/unnamed/part_000) -/

/-- The player fields tracked by the roster model (id plus one representative
mutable cosmetic field). -/
structure RosterPlayer where
  id : String
  name : String
deriving DecidableEq

/-- The two player stores described in `src/unnamed/part_000`: `playerSlice`
keeps players as an id-keyed object (modelled as an insertion-ordered
association list, matching JavaScript object key order), `gameSlice` keeps
them as an array. -/
structure Stores where
  players : List (String × RosterPlayer)
  gamePlayers : List RosterPlayer
deriving DecidableEq

/-- Modelled from the spec: the `players/addPlayer` reducer of
`playerSlice.js` (file not among the sources; `src/unnamed/part_000` lines
11-20 and 182-183 document that it stores player data as an object with
player ids as keys and "handles the object format").  `addPlayer({playerId,
playerData})` sets `players[playerId] = playerData`, overwriting an existing
entry or appending a new key. -/
def addPlayerReduce (obj : List (String × RosterPlayer)) (pid : String)
    (pd : RosterPlayer) : List (String × RosterPlayer) :=
  if (obj.find? (fun e => e.1 = pid)).isSome then
    obj.map (fun e => if e.1 = pid then (pid, pd) else e)
  else
    obj ++ [(pid, pd)]

/-- Modelled from the spec: the `players/updatePlayer` reducer of
`playerSlice.js` (file not among the sources); `updatePlayer({playerId,
updates})` merges the updates into the existing entry.  Only the `name`
field is modelled. -/
def updatePlayerReduce (obj : List (String × RosterPlayer)) (pid : String)
    (newName : String) : List (String × RosterPlayer) :=
  obj.map (fun e => if e.1 = pid then (pid, { e.2 with name := newName }) else e)

/-- The player-array conversion used by the middleware when regenerating the
`gameSlice` array from the `playerSlice` object (stateAdapterMiddleware.js
lines 42-60 and 85-103): `name: player.name || "Player_" +
player.id.substring(0, 4)` (only the modelled fields are shown). -/
def convertPlayers (obj : List (String × RosterPlayer)) : List RosterPlayer :=
  obj.map (fun e =>
    { id := e.2.id, name := jsOr e.2.name ("Player_" ++ String.mk (e.2.id.toList.take 4)) })

/-- Roster-mutating Redux actions routed through the middleware. -/
inductive RosterAction where
  | addPlayer (pid : String) (pd : RosterPlayer)
  | updatePlayer (pid : String) (newName : String)
  | setPlayers (ps : List RosterPlayer) (isSync : Bool)

/-- The reducers run by `next(action)` before the middleware body executes
(stateAdapterMiddleware.js line 15): `players/addPlayer` and
`players/updatePlayer` write the `playerSlice` object, `game/setPlayers`
writes the `gameSlice` array. -/
def reduceAction (st : Stores) : RosterAction → Stores
  | .addPlayer pid pd => { st with players := addPlayerReduce st.players pid pd }
  | .updatePlayer pid nm => { st with players := updatePlayerReduce st.players pid nm }
  | .setPlayers ps _ => { st with gamePlayers := ps }

/-- The `game/setPlayers` middleware case (stateAdapterMiddleware.js lines
117-194): for each player of the `gameSlice` array, a player absent from the
`playerSlice` object is added (`name: player.name`, line 145), and a player
present in both is updated with `name: player.name || existingPlayer.name`
(line 172).  The inner dispatches run with the sync flag set, so they do not
re-enter the middleware. -/
def syncSetPlayersToPlayerSlice (st : Stores) : Stores :=
  { st with
    players := st.gamePlayers.foldl (fun obj p =>
      if (obj.find? (fun e => e.1 = p.id)).isSome then
        updatePlayerReduce obj p.id (jsOr p.name
          (((obj.find? (fun e => e.1 = p.id)).map (fun e => e.2.name)).getD ""))
      else
        addPlayerReduce obj p.id { id := p.id, name := p.name }) st.players }

/-- One Redux dispatch as seen through `stateAdapterMiddleware`
(stateAdapterMiddleware.js lines 13-227): the reducer runs first, then per
action type the middleware synchronizes the stores.  `players/addPlayer`
regenerates the `gameSlice` array from the `playerSlice` object only when the
two stores hold different numbers of players (line 36); `players/updatePlayer`
always regenerates it (lines 75-113); `game/setPlayers` with the sync flag
set is skipped (lines 119-121), otherwise its players are pushed into the
`playerSlice` object (lines 133-188). -/
def dispatchAction (st : Stores) (a : RosterAction) : Stores :=
  let st1 := reduceAction st a
  match a with
  | .addPlayer _ _ =>
    if st1.players.length ≠ st1.gamePlayers.length then
      { st1 with gamePlayers := convertPlayers st1.players }
    else st1
  | .updatePlayer _ _ => { st1 with gamePlayers := convertPlayers st1.players }
  | .setPlayers _ isSync => if isSync then st1 else syncSetPlayersToPlayerSlice st1

/-! ### JWT authentication (jwt.go) -/

/-- ASCII lowercase of a string, modelling Go's `strings.ToLower` on the
ASCII scheme words compared by the middleware. -/
def toLowerAscii (s : String) : String := String.mk (s.toList.map Char.toLower)

/-- The JWT claims of `jwt.go` lines 13-18: `UserID`, `WalletAddress` and the
registered `ExpiresAt`/`IssuedAt` timestamps (seconds). -/
structure Claims where
  userID : String
  walletAddress : String
  expiresAt : Nat
  issuedAt : Nat
deriving DecidableEq

/-- Signing algorithms relevant to `jwt.go`: the HMAC family used by
`GenerateJWT` (`SigningMethodHS256`) versus any non-HMAC method, which the
middleware's key function rejects. -/
inductive SigAlg where
  | hs256
  | nonHMAC
deriving DecidableEq

/-- A decoded JWT: claims, header algorithm, and signature tag. -/
structure Jwt where
  claims : Claims
  alg : SigAlg
  sig : Nat
deriving DecidableEq

/-- The serialized signing input of a claims set (models the JWT
header/payload encoding both sides sign). -/
def signingInput (c : Claims) : String :=
  c.userID ++ "." ++ c.walletAddress ++ "." ++ toString c.expiresAt ++ "." ++
    toString c.issuedAt

/-- Model of HMAC-SHA256: a deterministic tag computed from the secret and the
signing input.  Both `GenerateJWT` and the middleware's key function use the
same secret, so only determinism matters for the properties proved here. -/
def hmacTag (secret payload : String) : Nat :=
  (secret ++ ":" ++ payload).foldl (fun a ch => a * 131 + ch.toNat) 7

/-- `GenerateJWT` (jwt.go lines 72-96): builds claims with
`ExpiresAt = now + expirationHours hours`, `IssuedAt = now`, and signs them
with HMAC-SHA256 under `secret`. -/
def generateJWT (userID walletAddress secret : String) (now expirationHours : Nat) : Jwt :=
  let c : Claims :=
    { userID := userID, walletAddress := walletAddress,
      expiresAt := now + expirationHours * 3600, issuedAt := now }
  { claims := c, alg := .hs256, sig := hmacTag secret (signingInput c) }

/-- Token parsing and validation as performed by `jwt.ParseWithClaims` with
the key function of `JWTMiddleware` (jwt.go lines 37-47): reject a non-HMAC
signing method, reject a bad signature, reject an expired token; otherwise
return the claims.  `now` is the verification time in seconds. -/
def parseWithClaims (secret : String) (now : Nat) (t : Jwt) : Except String Claims :=
  if t.alg ≠ SigAlg.hs256 then .error "unexpected signing method"
  else if t.sig ≠ hmacTag secret (signingInput t.claims) then .error "signature is invalid"
  else if t.claims.expiresAt ≤ now then .error "token is expired"
  else .ok t.claims

/-- Outcome of the JWT middleware for one request. -/
inductive MwResult where
  | unauthorized (msg : String)
  | internalError (msg : String)
  | ok (userID : String) (walletAddress : Option String)
deriving DecidableEq

/-- `JWTMiddleware` (jwt.go lines 21-68).  The `Authorization` header is
modelled as `none` when absent and otherwise as the scheme word plus the
decoded bearer token (a header that does not split into exactly two parts is
covered by the scheme check).  A missing header, a scheme other than
case-insensitive `"bearer"`, or a token that fails `parseWithClaims` all
yield 401 Unauthorized; on success `userID` is stored in the context and
`walletAddress` only when non-empty. -/
def jwtMiddleware (secret : String) (now : Nat) (header : Option (String × Jwt)) :
    MwResult :=
  match header with
  | none => .unauthorized "missing authorization header"
  | some (scheme, tok) =>
    if toLowerAscii scheme ≠ "bearer" then
      .unauthorized "invalid authorization header format"
    else
      match parseWithClaims secret now tok with
      | .error _ => .unauthorized "invalid or expired token"
      | .ok c => .ok c.userID (if c.walletAddress = "" then none else some c.walletAddress)

/-! ### Solana signature validation (src/unnamed/part_002, auth_handler.go) -/

/-- The mutable state of `SolanaValidator` (src/unnamed/part_002 lines 15-21):
whether validation is enabled and whether the RPC client was initialized. -/
structure SolanaValidator where
  enabled : Bool
  clientReady : Bool
deriving DecidableEq

/-- `SolanaValidator.VerifySignature` (src/unnamed/part_002 lines 63-131).
When validation is disabled the function returns `true` immediately — the
credential is reported valid without being examined.  Otherwise it fails on
an uninitialized client, an unparseable wallet address, an undecodable
signature, or a signature whose decoded length is not 64 bytes, and finally
returns the verdict of the ed25519 check `solanaSig.Verify(pubKey,
messageBytes)`, which is abstracted as the input `ed25519Valid` (external
cryptography collaborator). -/
def verifySignature (v : SolanaValidator) (walletAddressValid sigDecodeOk : Bool)
    (sigBytes : List Nat) (ed25519Valid : Bool) : Except String Bool :=
  if v.enabled = false then .ok true
  else if v.clientReady = false then .error "solana validator client not initialized"
  else if walletAddressValid = false then .error "invalid wallet address"
  else if sigDecodeOk = false then .error "could not parse signature in any format"
  else if sigBytes.length ≠ 64 then .error "invalid signature length"
  else .ok ed25519Valid

/-- Outcome of the wallet-connect handler. -/
inductive WCResult where
  | badRequest (msg : String)
  | unauthorized (msg : String)
  | okToken (walletAddress : String)
deriving DecidableEq

/-- `AuthHandler.WalletConnect` (auth_handler.go lines 157-240), after request
binding/validation: in dev mode the validator is disabled (line 183); a
`VerifySignature` error yields 400, an invalid verdict yields 401
"Signature verification failed", and a valid verdict issues a JWT bound to
the requested wallet address. -/
def walletConnect (v : SolanaValidator) (devMode : Bool)
    (walletAddressValid sigDecodeOk : Bool) (sigBytes : List Nat)
    (ed25519Valid : Bool) (walletAddress : String) : WCResult :=
  let v1 : SolanaValidator := if devMode then { v with enabled := false } else v
  match verifySignature v1 walletAddressValid sigDecodeOk sigBytes ed25519Valid with
  | .error e => .badRequest ("Invalid signature: " ++ e)
  | .ok false => .unauthorized "Signature verification failed"
  | .ok true => .okToken walletAddress

/-! ### Theorems -/

/-- C2 counterexample: an unclean disconnection while the
navigation-preservation condition holds — even with all five attempts already
spent — resets the counter and schedules a reconnect after a fixed 100 ms,
which is neither the claimed `1000 * 1.5^(n-1)` delay for the next attempt
nor a stop at the cap; and a failed counted attempt that used saved player
data schedules an extra retry after a fixed 1000 ms instead of the claimed
1500 ms for attempt 2. -/
theorem reconnect_backoff_c2_counterexample :
    SocketService.handleDisconnect false true 5 = (0, some 100) ∧
    (100 : ℚ) ≠ SocketService.reconnectInterval * (3 / 2 : ℚ) ^ (6 - 1) ∧
    SocketService.reconnectFailureRetry true 1 = some 1000 ∧
    (1000 : ℚ) ≠ SocketService.reconnectInterval * (3 / 2 : ℚ) ^ (2 - 1) := by
  refine ⟨rfl, ?_, rfl, ?_⟩
  · rw [SocketService.reconnectInterval]
    norm_num
  · rw [SocketService.reconnectInterval]
    norm_num

/-- C2 (amended): on an unclean disconnection with the navigation flags clear,
the standard branch schedules attempt `n` after `1000 * 1.5^(n-1)` ms and
schedules nothing once `maxReconnectAttempts = 5` attempts have been made;
but while `isNavigating`/`preserveConnection` (or the persisted navigation
flag) is set, the client instead resets the attempt counter and reconnects
after a fixed 100 ms regardless of the count, and a failed counted attempt
that used saved player data triggers one extra uncounted retry after a fixed
1000 ms while the counter is below the cap. -/
theorem reconnect_backoff_c2_amended :
    (∀ n : Nat, 1 ≤ n → n ≤ SocketService.maxReconnectAttempts →
      SocketService.handleDisconnect false false (n - 1) =
        (n, some (SocketService.reconnectInterval * (3 / 2 : ℚ) ^ (n - 1)))) ∧
    (∀ a : Nat, SocketService.maxReconnectAttempts ≤ a →
      SocketService.handleDisconnect false false a = (a, none)) ∧
    (∀ (w : Bool) (a : Nat), SocketService.handleDisconnect w true a = (0, some 100)) ∧
    (∀ a : Nat, a < SocketService.maxReconnectAttempts →
      SocketService.reconnectFailureRetry true a = some 1000) ∧
    (∀ a : Nat, SocketService.maxReconnectAttempts ≤ a →
      SocketService.reconnectFailureRetry true a = none) ∧
    (∀ a : Nat, SocketService.reconnectFailureRetry false a = none) := by
  refine ⟨?_, ?_, ?_, ?_, ?_, ?_⟩
  · intro n h1 h5
    have hlt : n - 1 < SocketService.maxReconnectAttempts := by
      simp only [SocketService.maxReconnectAttempts] at h5 ⊢
      omega
    have hn : n - 1 + 1 = n := by omega
    simp [SocketService.handleDisconnect, hlt, hn]
  · intro a ha
    have : ¬ a < SocketService.maxReconnectAttempts := by omega
    simp [SocketService.handleDisconnect, this]
  · intro w a
    simp [SocketService.handleDisconnect]
  · intro a ha
    simp [SocketService.reconnectFailureRetry, ha]
  · intro a ha
    have : ¬ a < SocketService.maxReconnectAttempts := by omega
    simp [SocketService.reconnectFailureRetry, this]
  · intro a
    simp [SocketService.reconnectFailureRetry]

/-- Witness for C2 (amended): outside navigation, the third attempt is
scheduled `1000 * 1.5^2 = 2250` ms after the disconnect and after five
attempts nothing more is scheduled; with one attempt spent, a failed
saved-data attempt retries after 1000 ms. -/
theorem reconnect_backoff_c2_amended_witness :
    SocketService.handleDisconnect false false 2 =
      (3, some (SocketService.reconnectInterval * (3 / 2 : ℚ) ^ 2)) ∧
    SocketService.handleDisconnect false false 5 = (5, none) ∧
    SocketService.reconnectFailureRetry true 1 = some 1000 :=
  ⟨reconnect_backoff_c2_amended.1 3 (by decide) (by decide),
   reconnect_backoff_c2_amended.2.1 5 (by decide),
   reconnect_backoff_c2_amended.2.2.2.1 1 (by decide)⟩

/-- C9 counterexample: acknowledgements are not enqueued on the HIGH lane; the
migration script sends `ackBytes` with `PriorityNormal`. -/
theorem lanes_c9_counterexample :
    sendToPlayerWithPriorityLane .ack = .normal ∧ Priority.normal ≠ .high := by
  decide

/-- C9 (amended): the migration script assigns the HIGH lane to error messages
and the NORMAL lane to acknowledgements, responses and confirmations; no call
site is assigned the LOW lane. -/
theorem lanes_c9_amended :
    sendToPlayerWithPriorityLane .errorMessage = .high ∧
    sendToPlayerWithPriorityLane .ack = .normal ∧
    sendToPlayerWithPriorityLane .response = .normal ∧
    sendToPlayerWithPriorityLane .confirmation = .normal ∧
    ∀ k, sendToPlayerWithPriorityLane k ≠ .low := by
  refine ⟨rfl, rfl, rfl, rfl, ?_⟩
  intro k
  cases k <;> decide

/-- C8: the per-player disconnection state machine admits exactly the claimed
transitions: ACTIVE moves to GRACE with a 180-second countdown on transport
loss; a GRACE player returns to ACTIVE on reconnection; a GRACE countdown that
expires yields FORFEITED; and no other transition leaves GRACE (reaching
ACTIVE forces the event to be a reconnect, reaching FORFEITED forces an
expired tick). -/
theorem grace_state_machine_c8 :
    (graceStep .active .transportLoss = .grace defaultGraceSeconds ∧
      defaultGraceSeconds = 180) ∧
    (∀ r, graceStep (.grace r) .reconnect = .active) ∧
    (∀ r dt, r ≤ dt → graceStep (.grace r) (.tick dt) = .forfeited) ∧
    (∀ r e, graceStep (.grace r) e = .active → e = .reconnect) ∧
    (∀ r e, graceStep (.grace r) e = .forfeited →
      ∃ dt, e = .tick dt ∧ r ≤ dt) := by
  refine ⟨⟨rfl, rfl⟩, fun r => rfl, ?_, ?_, ?_⟩
  · intro r dt h
    simp [graceStep, h]
  · intro r e h
    cases e with
    | transportLoss => simp [graceStep] at h
    | reconnect => rfl
    | tick dt =>
        simp only [graceStep] at h
        split at h <;> simp_all
  · intro r e h
    cases e with
    | transportLoss => simp [graceStep] at h
    | reconnect => simp [graceStep] at h
    | tick dt =>
        refine ⟨dt, rfl, ?_⟩
        simp only [graceStep] at h
        split at h
        · assumption
        · simp_all

/-- Witness for C8: a GRACE player whose 180-second countdown has fully
elapsed transitions to FORFEITED. -/
theorem grace_state_machine_c8_witness :
    180 ≤ 200 ∧ graceStep (.grace 180) (.tick 200) = .forfeited :=
  ⟨by decide, grace_state_machine_c8.2.2.1 180 200 (by decide)⟩

/-- C1 counterexample: the program keeps two writable roster representations,
and they can disagree.  Starting from empty stores, dispatching
`players/addPlayer("alice", name "A")` syncs the array store (store sizes
differ), but a second `players/addPlayer("alice", name "B")` overwrites the
id-keyed entry while leaving both stores at size one, so the middleware's
size guard skips the sync: the id-keyed store then says `"B"` while the
array store still says `"A"` — the two representations have drifted. -/
theorem roster_drift_c1_counterexample :
    ((dispatchAction (dispatchAction ⟨[], []⟩ (.addPlayer "alice" ⟨"alice", "A"⟩))
        (.addPlayer "alice" ⟨"alice", "B"⟩)).players =
      [("alice", ⟨"alice", "B"⟩)]) ∧
    ((dispatchAction (dispatchAction ⟨[], []⟩ (.addPlayer "alice" ⟨"alice", "A"⟩))
        (.addPlayer "alice" ⟨"alice", "B"⟩)).gamePlayers = [⟨"alice", "A"⟩]) ∧
    (dispatchAction (dispatchAction ⟨[], []⟩ (.addPlayer "alice" ⟨"alice", "A"⟩))
        (.addPlayer "alice" ⟨"alice", "B"⟩)).gamePlayers ≠
      convertPlayers (dispatchAction (dispatchAction ⟨[], []⟩
        (.addPlayer "alice" ⟨"alice", "A"⟩)) (.addPlayer "alice" ⟨"alice", "B"⟩)).players := by
  refine ⟨rfl, rfl, ?_⟩
  decide

/-- C1 (amended): the program maintains two independently writable roster
representations (the id-keyed `playerSlice` object and the `gameSlice` array)
reconciled per-action by the state adapter middleware rather than one
canonical writable store: a `players/updatePlayer` dispatch always regenerates
the array view from the id-keyed store, while a `players/addPlayer` dispatch
regenerates it only when the two stores hold different numbers of players —
when the sizes match, the array view is left as it was, so the
representations can disagree. -/
theorem roster_sync_c1_amended :
    (∀ (st : Stores) (pid nm : String),
      (dispatchAction st (.updatePlayer pid nm)).gamePlayers =
        convertPlayers (dispatchAction st (.updatePlayer pid nm)).players) ∧
    (∀ (st : Stores) (pid : String) (pd : RosterPlayer),
      ((reduceAction st (.addPlayer pid pd)).players.length ≠
          (reduceAction st (.addPlayer pid pd)).gamePlayers.length →
        (dispatchAction st (.addPlayer pid pd)).gamePlayers =
          convertPlayers (dispatchAction st (.addPlayer pid pd)).players) ∧
      ((reduceAction st (.addPlayer pid pd)).players.length =
          (reduceAction st (.addPlayer pid pd)).gamePlayers.length →
        (dispatchAction st (.addPlayer pid pd)).gamePlayers = st.gamePlayers)) := by
  constructor
  · intro st pid nm
    rfl
  · intro st pid pd
    constructor
    · intro h
      have hd : dispatchAction st (.addPlayer pid pd) =
          { reduceAction st (.addPlayer pid pd) with
            gamePlayers := convertPlayers (reduceAction st (.addPlayer pid pd)).players } := by
        simp only [dispatchAction]
        rw [if_pos h]
      rw [hd]
    · intro h
      have hd : dispatchAction st (.addPlayer pid pd) = reduceAction st (.addPlayer pid pd) := by
        simp only [dispatchAction]
        rw [if_neg (not_ne_iff.mpr h)]
      rw [hd]
      rfl

/-- Witness for C1 (amended): adding a genuinely new second player leaves the
stores at different sizes, so the array view is regenerated; overwriting the
only player leaves the sizes equal, so the array view is untouched. -/
theorem roster_sync_c1_amended_witness :
    ((dispatchAction ⟨[("a", ⟨"a", "A"⟩)], [⟨"a", "A"⟩]⟩
        (.addPlayer "b" ⟨"b", "B"⟩)).gamePlayers =
      convertPlayers (dispatchAction ⟨[("a", ⟨"a", "A"⟩)], [⟨"a", "A"⟩]⟩
        (.addPlayer "b" ⟨"b", "B"⟩)).players) ∧
    ((dispatchAction ⟨[("a", ⟨"a", "A"⟩)], [⟨"a", "A"⟩]⟩
        (.addPlayer "a" ⟨"a", "Z"⟩)).gamePlayers = [⟨"a", "A"⟩]) :=
  ⟨(roster_sync_c1_amended.2 ⟨[("a", ⟨"a", "A"⟩)], [⟨"a", "A"⟩]⟩ "b" ⟨"b", "B"⟩).1
      (by decide),
   (roster_sync_c1_amended.2 ⟨[("a", ⟨"a", "A"⟩)], [⟨"a", "A"⟩]⟩ "a" ⟨"a", "Z"⟩).2
      (by decide)⟩

/-- One-step unfolding of `hasBoundary` on a cons cell. -/
theorem hasBoundary_cons (c : Char) (cs : List Char) :
    hasBoundary (c :: cs) =
      if c = '}' ∧ cs.head? = some '{' then true else hasBoundary cs := rfl

/-- One-step unfolding of `splitGo` on a cons cell. -/
theorem splitGo_cons (c : Char) (cs cur : List Char) :
    splitGo (c :: cs) cur =
      if c = '}' ∧ cs.head? = some '{' then ((c :: cur).reverse) :: splitGo cs []
      else splitGo cs (c :: cur) := rfl

/-- A frame without a `}{` boundary is returned whole by the boundary split. -/
theorem splitGo_no_boundary (p : List Char) (hb : hasBoundary p = false) :
    ∀ cur : List Char, splitGo p cur = [cur.reverse ++ p] := by
  induction p with
  | nil => intro cur; simp [splitGo]
  | cons c cs ih =>
    intro cur
    rw [hasBoundary_cons] at hb
    by_cases hc : c = '}' ∧ cs.head? = some '{'
    · rw [if_pos hc] at hb
      exact absurd hb (by simp)
    · rw [if_neg hc] at hb
      rw [splitGo_cons, if_neg hc, ih hb (c :: cur)]
      simp

/-- The boundary split cuts exactly at the junction of a boundary-free
brace-terminated part and a following part opening with a brace. -/
theorem splitGo_junction :
    ∀ p : List Char, hasBoundary p = false → p.getLast? = some '}' →
    ∀ rest cur : List Char, rest.head? = some '{' →
    splitGo (p ++ rest) cur = (cur.reverse ++ p) :: splitGo rest [] := by
  intro p
  induction p with
  | nil => intro _ hlast; simp at hlast
  | cons c cs ih =>
    intro hb hlast rest cur hrest
    cases cs with
    | nil =>
      have hc : c = '}' := by simpa using hlast
      subst hc
      rw [List.singleton_append, splitGo_cons, if_pos ⟨rfl, hrest⟩]
      simp
    | cons d cs2 =>
      rw [hasBoundary_cons] at hb
      by_cases hc : c = '}' ∧ (d :: cs2).head? = some '{'
      · rw [if_pos hc] at hb
        exact absurd hb (by simp)
      · rw [if_neg hc] at hb
        have hlast2 : (d :: cs2).getLast? = some '}' := by
          simpa [List.getLast?_cons_cons] using hlast
        have hcnot : ¬ (c = '}' ∧ ((d :: cs2) ++ rest).head? = some '{') := by
          rw [List.cons_append]
          rintro ⟨h1, h2⟩
          simp only [List.head?_cons, Option.some.injEq] at h2
          exact hc ⟨h1, by simp [h2]⟩
        rw [List.cons_append, splitGo_cons, if_neg hcnot,
          ih hb hlast2 rest (c :: cur) hrest]
        simp

/-- Splitting the concatenation of brace-delimited, boundary-free parts
recovers exactly those parts. -/
theorem splitConcatenated_flatten :
    ∀ parts : List (List Char),
    (∀ p ∈ parts, p.head? = some '{' ∧ p.getLast? = some '}' ∧ hasBoundary p = false) →
    parts ≠ [] →
    splitConcatenated parts.flatten = parts := by
  intro parts
  induction parts with
  | nil => intro _ h; exact absurd rfl h
  | cons p rest ih =>
    intro hshape _
    obtain ⟨hh, hl, hb⟩ := hshape p (by simp)
    cases rest with
    | nil =>
      show splitGo (p ++ [].flatten) [] = [p]
      rw [List.flatten_nil, List.append_nil, splitGo_no_boundary p hb []]
      simp
    | cons q rest2 =>
      have hq : q.head? = some '{' := (hshape q (by simp)).1
      have hflathead : ((q :: rest2).flatten).head? = some '{' := by
        cases q with
        | nil => simp at hq
        | cons a as =>
          simp only [List.head?_cons, Option.some.injEq] at hq
          simp [List.flatten_cons, hq]
      show splitGo (p ++ (q :: rest2).flatten) [] = p :: q :: rest2
      rw [splitGo_junction p hb hl ((q :: rest2).flatten) [] hflathead]
      have hrest := ih (fun r hr => hshape r (by simp [hr])) (by simp)
      rw [show splitGo ((q :: rest2).flatten) [] =
        splitConcatenated ((q :: rest2).flatten) from rfl, hrest]
      simp

/-- A brace-terminated part followed by a brace-opened remainder contains a
`}{` boundary. -/
theorem hasBoundary_junction :
    ∀ p rest : List Char, p.getLast? = some '}' → rest.head? = some '{' →
    hasBoundary (p ++ rest) = true := by
  intro p
  induction p with
  | nil => intro _ hlast; simp at hlast
  | cons c cs ih =>
    intro rest hlast hrest
    cases cs with
    | nil =>
      have hc : c = '}' := by simpa using hlast
      subst hc
      rw [List.singleton_append, hasBoundary_cons, if_pos ⟨rfl, hrest⟩]
    | cons d cs2 =>
      have hlast2 : (d :: cs2).getLast? = some '}' := by
        simpa [List.getLast?_cons_cons] using hlast
      rw [List.cons_append, hasBoundary_cons]
      by_cases hc : c = '}' ∧ ((d :: cs2) ++ rest).head? = some '{'
      · rw [if_pos hc]
      · rw [if_neg hc]
        exact ih rest hlast2 hrest

/-- Trimming is the identity on a frame that opens with `{` and closes
with `}`. -/
theorem trimChars_eq_self (p : List Char) (hh : p.head? = some '{')
    (hl : p.getLast? = some '}') : trimChars p = p := by
  have hdrop1 : p.dropWhile isWsChar = p := by
    cases p with
    | nil => simp at hh
    | cons a as =>
      have ha : a = '{' := by simpa using hh
      subst ha
      simp [List.dropWhile_cons, isWsChar]
  have hrevhead : p.reverse.head? = some '}' := by
    rw [List.head?_reverse]
    exact hl
  have hdrop2 : p.reverse.dropWhile isWsChar = p.reverse := by
    cases hrev : p.reverse with
    | nil => simp
    | cons b bs =>
      have hb : b = '}' := by
        rw [hrev] at hrevhead
        simpa using hrevhead
      subst hb
      simp [List.dropWhile_cons, isWsChar]
  unfold trimChars
  rw [hdrop1, hdrop2, List.reverse_reverse]

/-- Parsing the trimmed split parts keeps exactly the well-formed object
frames, in order. -/
theorem filterMap_parse_eq_filter :
    ∀ parts : List (List Char),
    (∀ p ∈ parts, p.head? = some '{' ∧ p.getLast? = some '}') →
    (parts.filterMap fun part => (parseJsonObj (trimChars part)).toOption) =
      parts.filter fun p => isObjFrame p := by
  intro parts
  induction parts with
  | nil => intro _; rfl
  | cons p rest ih =>
    intro hshape
    obtain ⟨hh, hl⟩ := hshape p (by simp)
    have htrim := trimChars_eq_self p hh hl
    have hrest := ih fun r hr => hshape r (by simp [hr])
    have hhead : (parseJsonObj (trimChars p)).toOption =
        if isObjFrame p then some p else none := by
      rw [htrim]
      by_cases hobj : isObjFrame p <;> simp [parseJsonObj, hobj, Except.toOption]
    simp only [List.filterMap_cons, List.filter_cons]
    rw [hhead, hrest]
    by_cases hobj : isObjFrame p
    · simp [hobj]
    · simp [hobj]

/-- C3: for every inbound frame that is a coalescence of two or more
brace-delimited parts (none containing a `}{` boundary of its own) and that
fails whole-frame parsing, `handleMessage` splits the frame at the `}{`
boundaries, processes exactly the successfully parsed objects in order,
drops the unparseable parts, and returns normally — no exception reaches the
caller. -/
theorem handleMessage_coalesced_c3
    (parts : List (List Char)) (hlen : 2 ≤ parts.length)
    (hshape : ∀ p ∈ parts,
      p.head? = some '{' ∧ p.getLast? = some '}' ∧ hasBoundary p = false)
    (hfail : isObjFrame parts.flatten = false) :
    handleMessage parts.flatten = .ok (parts.filter fun p => isObjFrame p) := by
  match parts, hlen with
  | p :: q :: rest, _ =>
    obtain ⟨hph, hpl, hpb⟩ := hshape p (by simp)
    have hq : q.head? = some '{' := (hshape q (by simp)).1
    have hflathead : ((q :: rest).flatten).head? = some '{' := by
      cases q with
      | nil => simp at hq
      | cons a as =>
        simp only [List.head?_cons, Option.some.injEq] at hq
        simp [List.flatten_cons, hq]
    have hbd : hasBoundary ((p :: q :: rest).flatten) = true := by
      simp only [List.flatten_cons]
      exact hasBoundary_junction p ((q :: rest).flatten) hpl hflathead
    have hsplit := splitConcatenated_flatten (p :: q :: rest) hshape (by simp)
    have hfm := filterMap_parse_eq_filter (p :: q :: rest)
      (fun r hr => ⟨(hshape r hr).1, (hshape r hr).2.1⟩)
    have hparse : parseJsonObj ((p :: q :: rest).flatten) =
        .error "SyntaxError: unexpected token in JSON" := by
      unfold parseJsonObj
      rw [hfail]
      simp
    simp only [handleMessage, hparse, hbd, if_true]
    rw [hsplit, hfm]

/-- Witness for C3: the frame `{a}{{}{b}` — two valid objects coalesced with
an unbalanced middle part — is split at the boundaries; the two valid
objects are processed, the bad part is dropped, and the handler returns
normally. -/
theorem handleMessage_coalesced_c3_witness :
    2 ≤ ([['{', 'a', '}'], ['{', '{', '}'], ['{', 'b', '}']] : List (List Char)).length ∧
    handleMessage ([['{', 'a', '}'], ['{', '{', '}'], ['{', 'b', '}']] :
        List (List Char)).flatten =
      .ok (([['{', 'a', '}'], ['{', '{', '}'], ['{', 'b', '}']] :
        List (List Char)).filter fun p => isObjFrame p) :=
  ⟨by decide,
   handleMessage_coalesced_c3 [['{', 'a', '}'], ['{', '{', '}'], ['{', 'b', '}']]
     (by decide) (by decide) (by decide)⟩

/-- C4 counterexample: with `hostId = some "h"` already set and player `"h"`
present, a `player_joined` for a different player `"p"` carrying an explicit
host claim dispatches `setHost("p")` — the existing host is overwritten, not
left unchanged as the claim states. -/
theorem host_claim_c4_counterexample :
    handlePlayerJoinedHostId (some "h") ["h"] "p" true = some "p" ∧
    some "p" ≠ some "h" := by
  constructor
  · rfl
  · decide

/-- C4 (amended): an explicit host claim in a `player_joined` message is
always honored — after `handlePlayerJoined` processes a message with
`isHost === true`, the game's `hostId` is the claimant, regardless of whether
a different host already existed. -/
theorem host_claim_c4_amended (hostId : Option String) (existingIds : List String)
    (pid : String) :
    handlePlayerJoinedHostId hostId existingIds pid true = some pid := by
  unfold handlePlayerJoinedHostId
  by_cases hmem : pid ∈ existingIds
  · simp only [hmem, if_true]
    by_cases hid : hostId = some pid
    · simp [hid]
    · simp [Ne.symm, hid]
  · simp [hmem]

/-- C5 counterexample: a `game_started` message carrying no `currentTurn`
while `hostId = "hostA"` makes the client originate a current-turn value
itself — it sets its local state to `"hostA"` (a value carried by no server
message) and sends `set_current_turn` to the server. -/
theorem turn_authority_c5_counterexample :
    handleGameStartedTurn "" "hostA" "" = ("hostA", true) ∧ ("hostA" : String) ≠ "" := by
  constructor
  · rfl
  · decide

/-- C5 (amended): the `turn_changed` and `current_turn` handlers only ever
overwrite the local current-turn state with the value carried in the server
message (leaving it unchanged when the message carries none), and
`game_started` adopts the server's `currentTurn` when present; but when
`game_started` carries no `currentTurn` and a `hostId` is known, the client
originates the value itself, setting the host as current player and sending
`set_current_turn` to the server. -/
theorem turn_authority_c5_amended :
    (∀ ct prev : String, ct ≠ "" → handleTurnChanged ct prev = ct) ∧
    (∀ prev : String, handleTurnChanged "" prev = prev) ∧
    (∀ ct cp prev : String, ct ≠ "" → handleCurrentTurn ct cp prev = ct) ∧
    (∀ cp prev : String, cp ≠ "" → handleCurrentTurn "" cp prev = cp) ∧
    (∀ prev : String, handleCurrentTurn "" "" prev = prev) ∧
    (∀ ct host prev : String, ct ≠ "" → handleGameStartedTurn ct host prev = (ct, false)) ∧
    (∀ host prev : String, host ≠ "" → handleGameStartedTurn "" host prev = (host, true)) ∧
    (∀ prev : String, handleGameStartedTurn "" "" prev = (prev, false)) := by
  refine ⟨?_, ?_, ?_, ?_, ?_, ?_, ?_, ?_⟩
  · intro ct prev h
    simp [handleTurnChanged, h]
  · intro prev
    simp [handleTurnChanged]
  · intro ct cp prev h
    simp [handleCurrentTurn, jsOr, h]
  · intro cp prev h
    simp [handleCurrentTurn, jsOr, h]
  · intro prev
    simp [handleCurrentTurn, jsOr]
  · intro ct host prev h
    simp [handleGameStartedTurn, h]
  · intro host prev h
    simp [handleGameStartedTurn, h]
  · intro prev
    simp [handleGameStartedTurn]

/-- Witness for C5 (amended): `turn_changed` with value `"p2"` overwrites
local state `"p1"` with `"p2"`, and a `game_started` without `currentTurn`
but with host `"h"` yields the client-originated pair `("h", true)`. -/
theorem turn_authority_c5_amended_witness :
    handleTurnChanged "p2" "p1" = "p2" ∧
    handleGameStartedTurn "" "h" "p1" = ("h", true) :=
  ⟨turn_authority_c5_amended.1 "p2" "p1" (by decide),
   turn_authority_c5_amended.2.2.2.2.2.2.1 "h" "p1" (by decide)⟩

/-- C7 (code bug): the `handlePlayerJoined` merge site never applies the
claimed most-recently-set-non-empty-wins merge.  At the failing input —
incoming name `"Neo"` over stored `"old"` — the update it computes would
adopt `"Neo"` exactly as the claim describes, but the handler throws a
`ReferenceError` (undeclared `data`, socketService.js line 1968) before the
`dispatch(updatePlayer)` at line 1971; in general, whenever any cosmetic
field would change the handler crashes, and otherwise there is nothing to
change, so the record this handler stores is always the unchanged existing
one. -/
theorem cosmetic_merge_c7_bug :
    (handlePlayerJoinedMerge ⟨"Neo", "", "", ""⟩ ⟨"old", "t", "e", "c"⟩).name = "Neo" ∧
    handlePlayerJoinedUpdate ⟨"Neo", "", "", ""⟩ ⟨"old", "t", "e", "c"⟩ =
      .error "ReferenceError: data is not defined" ∧
    (∀ incoming existing : CosmeticView,
      handlePlayerJoinedUpdate incoming existing = .ok existing ∨
      handlePlayerJoinedUpdate incoming existing =
        .error "ReferenceError: data is not defined") := by
  refine ⟨by decide, rfl, ?_⟩
  intro incoming existing
  unfold handlePlayerJoinedUpdate
  by_cases hc : (incoming.name ≠ "" ∧ existing.name ≠ incoming.name) ∨
      (incoming.token ≠ "" ∧ existing.token ≠ incoming.token) ∨
      (incoming.emoji ≠ "" ∧ existing.emoji ≠ incoming.emoji) ∨
      (incoming.color ≠ "" ∧ existing.color ≠ incoming.color)
  · right
    rw [if_pos hc]
  · left
    rw [if_neg hc]

/-- C6 counterexample: with validation disabled, `VerifySignature` reports the
credential valid without examining it — here the wallet address is invalid,
the signature undecodable and the ed25519 verdict negative, yet the check
succeeds; and in dev mode `WalletConnect` issues a token for a signature the
cryptographic check rejects. -/
theorem auth_c6_counterexample :
    verifySignature ⟨false, true⟩ false false [] false = .ok true ∧
    walletConnect ⟨true, true⟩ true true true (List.replicate 64 0) false "wallet1" =
      .okToken "wallet1" := by
  exact ⟨rfl, rfl⟩

/-- C6 (amended): JWT authentication rejects missing, malformed, invalid and
expired credentials with Unauthorized, and with signature validation enabled
a successful wallet check implies the ed25519 verification actually passed
(an enabled check of a failing signature yields Unauthorized); but when the
validator is disabled (dev mode, or missing configuration) `VerifySignature`
succeeds without verifying anything, so the no-silent-downgrade guarantee
holds only while validation is enabled. -/
theorem auth_c6_amended :
    (∀ secret now, jwtMiddleware secret now none =
      .unauthorized "missing authorization header") ∧
    (∀ secret now scheme tok, toLowerAscii scheme ≠ "bearer" →
      jwtMiddleware secret now (some (scheme, tok)) =
        .unauthorized "invalid authorization header format") ∧
    (∀ secret now scheme tok e, toLowerAscii scheme = "bearer" →
      parseWithClaims secret now tok = .error e →
      jwtMiddleware secret now (some (scheme, tok)) =
        .unauthorized "invalid or expired token") ∧
    (∀ uid wa secret hours now t, now + hours * 3600 ≤ t →
      parseWithClaims secret t (generateJWT uid wa secret now hours) =
        .error "token is expired") ∧
    (∀ v wv dec s e, v.enabled = true →
      verifySignature v wv dec s e = .ok true → e = true) ∧
    (∀ v wv dec s e, v.enabled = false →
      verifySignature v wv dec s e = .ok true) ∧
    (∀ (v : SolanaValidator) (s : List Nat) wallet, v.enabled = true →
      v.clientReady = true → s.length = 64 →
      walletConnect v false true true s false wallet =
        .unauthorized "Signature verification failed") := by
  refine ⟨fun _ _ => rfl, ?_, ?_, ?_, ?_, ?_, ?_⟩
  · intro secret now scheme tok h
    simp [jwtMiddleware, h]
  · intro secret now scheme tok e hs hp
    simp [jwtMiddleware, hs, hp]
  · intro uid wa secret hours now t h
    simp [parseWithClaims, generateJWT, h]
  · intro v wv dec s e he hok
    simp only [verifySignature, he] at hok
    split_ifs at hok <;> simp_all
  · intro v wv dec s e he
    simp [verifySignature, he]
  · intro v s wallet he hc hl
    simp [walletConnect, verifySignature, he, hc, hl]

/-- Witness for C6 (amended): a disabled validator passes an unexamined
credential, while an enabled one rejects a cryptographically failing
signature with Unauthorized. -/
theorem auth_c6_amended_witness :
    verifySignature ⟨false, true⟩ true true [] false = .ok true ∧
    walletConnect ⟨true, true⟩ false true true (List.replicate 64 0) false "w" =
      .unauthorized "Signature verification failed" :=
  ⟨auth_c6_amended.2.2.2.2.2.1 ⟨false, true⟩ true true [] false rfl,
   auth_c6_amended.2.2.2.2.2.2 ⟨true, true⟩ (List.replicate 64 0) "w" rfl rfl
     (by decide)⟩

/-- C10: a token produced by `GenerateJWT` with a given secret is accepted by
`JWTMiddleware` configured with the same secret while the validity window has
not expired, and the userID and walletAddress recovered from the token's
claims equal the values the token was generated with. -/
theorem jwt_roundtrip_c10 (uid wa secret : String) (now hours t : Nat)
    (hvalid : t < now + hours * 3600) :
    (generateJWT uid wa secret now hours).claims.userID = uid ∧
    (generateJWT uid wa secret now hours).claims.walletAddress = wa ∧
    jwtMiddleware secret t (some ("Bearer", generateJWT uid wa secret now hours)) =
      .ok uid (if wa = "" then none else some wa) := by
  refine ⟨rfl, rfl, ?_⟩
  have hb : toLowerAscii "Bearer" = "bearer" := by decide
  have hexp : ¬ (now + hours * 3600 ≤ t) := by omega
  simp [jwtMiddleware, parseWithClaims, generateJWT, hb, hexp]

/-- Witness for C10: the round trip at concrete values — a token for user
`"u1"` with wallet `"w1"`, issued at time 0 for one hour, is accepted at
time 10 and returns exactly those identity values. -/
theorem jwt_roundtrip_c10_witness :
    (10 : Nat) < 0 + 1 * 3600 ∧
    jwtMiddleware "sec" 10 (some ("Bearer", generateJWT "u1" "w1" "sec" 0 1)) =
      .ok "u1" (if ("w1" : String) = "" then none else some "w1") :=
  ⟨by decide, (jwt_roundtrip_c10 "u1" "w1" "sec" 0 1 10 (by decide)).2.2⟩

end Kekopoly
